import Mathlib

/-!
Verification development for the transaction-aware snapshot/backup
coordination core of yugabyte-db, checked against the client backup test
src/yb/client/backup-txn-test.cc and the design specification.

The file has two layers:
1. Shallow embeddings of the code under src (the poll predicate of
   WaitAllSnapshotsDeleted, the import-done predicate IsSnapshotImportDone).
2. Definitions modelled from the specification for the parts of the
   repository that are not under src (the Snapshot Coordinator state
   machine, the multi-version table data visible to snapshot/restore).
-/

namespace YB

/-- Modelled from the spec: the snapshot entity states of section 4.1,
with the numeric tags of the protobuf enum SysSnapshotEntryPB.State,
whose declaration is not under src (proto enums start at UNKNOWN = 0,
so every named state has a nonzero tag). -/
inductive SnapshotState
  | UNKNOWN
  | CREATING
  | COMPLETE
  | DELETING
  | DELETED
  | FAILED
deriving DecidableEq

/-- Numeric tag of each state in the protobuf enum. -/
def stateValue : SnapshotState → Nat
  | SnapshotState.UNKNOWN => 0
  | SnapshotState.CREATING => 1
  | SnapshotState.COMPLETE => 2
  | SnapshotState.DELETING => 3
  | SnapshotState.DELETED => 4
  | SnapshotState.FAILED => 5

/-- Structured status codes of section 7. -/
inductive YBError
  | IllegalState (msg : String)
  | NotFound (msg : String)
  | Conflict (msg : String)
  | TimedOut (msg : String)
deriving DecidableEq

/-- The C++ comma operator: evaluates both operands and yields the second. -/
def commaOp {α β : Type} (_discarded : α) (b : β) : β := b

/-- C++ truthiness of an enum value: nonzero converts to true. -/
def enumTruthy (s : SnapshotState) : Bool := stateValue s != 0

/-- Embedding of the first polling predicate of WaitAllSnapshotsDeleted
(backup-txn-test.cc lines 102-111): checks that exactly one snapshot is
listed, then evaluates the condition
`(snapshots[0].entry().state(), SysSnapshotEntryPB::DELETED)` — a comma
expression whose left operand is discarded — returning true when that
condition is truthy, otherwise checking the state equals DELETING
(error IllegalState if not) and returning false to keep polling. -/
def waitAllSnapshotsDeletedPoll (snapshots : List SnapshotState) :
    Except YBError Bool :=
  match snapshots with
  | [s0] =>
    if enumTruthy (commaOp s0 SnapshotState.DELETED) then
      Except.ok true
    else if s0 = SnapshotState.DELETING then
      Except.ok false
    else
      Except.error (YBError.IllegalState "Wrong snapshot state")
  | _ => Except.error (YBError.IllegalState "Wrong number of snapshots")

/-- Modelled from the spec: the WaitFor polling harness (the test-util
loop is not under src). It re-evaluates the predicate each round, stops
immediately with the error when the predicate fails (section 7:
IllegalState is fatal to the operation), stops with true on success, and
times out when the fuel runs out. -/
def waitForPoll (p : Except YBError Bool) : Nat → Except YBError Bool
  | 0 => Except.error (YBError.TimedOut "Timed out")
  | Nat.succ n =>
    match p with
    | Except.error e => Except.error e
    | Except.ok true => Except.ok true
    | Except.ok false => waitForPoll p n

/-- Table metadata entry returned by ImportSnapshotMeta: the pair of the
old (captured) table id and the newly created table id. -/
structure TableMetaPB where
  old_id : String
  new_id : String
deriving DecidableEq

/-- Embedding of IsSnapshotImportDone (backup-txn-test.cc lines 155-161):
opens each imported table by its new id, propagating the first failure,
and returns true when every open succeeded. -/
def IsSnapshotImportDone (openTable : String → Except YBError Unit) :
    List TableMetaPB → Except YBError Bool
  | [] => Except.ok true
  | t :: rest =>
    match openTable t.new_id with
    | Except.error e => Except.error e
    | Except.ok _ => IsSnapshotImportDone openTable rest

/-- Modelled from the spec: per-partition status of an in-flight
operation, as recorded in the entity (section 3, per_tablet_status). -/
inductive TabletStatus
  | PENDING
  | DONE
  | FAILED
deriving DecidableEq

/-- Modelled from the spec: a SnapshotEntity record of the Persisted
Operation Log (section 3): identity, aggregate state, per-tablet status,
wall-clock bookkeeping for cleanup scheduling, the consistent hybrid
time, and whether any partition still holds on-disk artifacts of the
snapshot. -/
structure SnapshotEntity where
  eid : Nat
  state : SnapshotState
  tablets : List TabletStatus
  creation_time : Nat
  snapshot_hybrid_time : Nat
  delete_start_time : Option Nat
  on_disk : Bool
deriving DecidableEq

/-- Modelled from the spec: the configurable timing parameters of the
Snapshot Coordinator — the bounded overall operation timeout and the
cleanup delay past DELETED (section 4.1). -/
structure CoordinatorConfig where
  overall_timeout : Nat
  cleanup_delay : Nat
deriving DecidableEq

/-- Modelled from the spec: the environment of one poll round — whether
the participant tablet servers are reachable and whether the covered
table still exists. -/
structure ClusterEnv where
  tservers_up : Bool
  table_exists : Bool
deriving DecidableEq

/-- Modelled from the spec: one poll-interval step of the Snapshot
Coordinator state machine of section 4.1 for a single entity. A CREATING
snapshot whose covered table was deleted fails; with reachable
participants every partition reports DONE and the snapshot completes;
unreachable participants are retried indefinitely until the bounded
overall timeout fires, at which point the snapshot fails. A DELETING
snapshot becomes DELETED once participants confirm removal or are
confirmed gone (table deleted), clearing the on-disk artifacts and
recording the deletion time. A DELETED entity is purged by the cleanup
sweep once its age exceeds the cleanup delay (the sweep re-derives its
candidate set from the persisted record, returning none to drop it).
COMPLETE and FAILED are terminal and never change. -/
def pollEntity (cfg : CoordinatorConfig) (env : ClusterEnv) (now : Nat)
    (e : SnapshotEntity) : Option SnapshotEntity :=
  match e.state with
  | SnapshotState.CREATING =>
    if !env.table_exists then
      some { e with state := SnapshotState.FAILED }
    else if env.tservers_up then
      some { e with
        tablets := e.tablets.map (fun _ => TabletStatus.DONE),
        state := SnapshotState.COMPLETE }
    else if e.creation_time + cfg.overall_timeout ≤ now then
      some { e with state := SnapshotState.FAILED }
    else
      some e
  | SnapshotState.COMPLETE => some e
  | SnapshotState.FAILED => some e
  | SnapshotState.DELETING =>
    if env.tservers_up || !env.table_exists then
      some { e with
        state := SnapshotState.DELETED,
        on_disk := false,
        delete_start_time := some now }
    else
      some e
  | SnapshotState.DELETED =>
    match e.delete_start_time with
    | some dt => if dt + cfg.cleanup_delay ≤ now then none else some e
    | none => some e
  | SnapshotState.UNKNOWN => some e

/-- Modelled from the spec: the coordinating master process state — the
current time, the Persisted Operation Log (the single source of truth),
and the in-memory cache of entities, which is rebuilt from the persisted
log and never the reverse (section 3, ownership). -/
structure SysState where
  now : Nat
  persisted : List SnapshotEntity
  mem_cache : List SnapshotEntity
deriving DecidableEq

/-- Modelled from the spec: one poll tick of the Coordinator — every
entity is advanced by pollEntity, the result is persisted, the in-memory
cache is refreshed from it, and time advances by one unit. -/
def tick (cfg : CoordinatorConfig) (env : ClusterEnv) (s : SysState) :
    SysState :=
  let next := s.persisted.filterMap (pollEntity cfg env s.now)
  { now := s.now + 1, persisted := next, mem_cache := next }

/-- Iterated poll ticks. -/
def ticks (cfg : CoordinatorConfig) (env : ClusterEnv) :
    Nat → SysState → SysState
  | 0, s => s
  | Nat.succ n, s => ticks cfg env n (tick cfg env s)

/-- Modelled from the spec: a restart or failover of the coordinating
master process. The in-memory state is reconstructed solely from the
Persisted Operation Log; the persisted entities are untouched and
nothing is re-executed at restart itself (section 4.1, failover). -/
def restartMaster (s : SysState) : SysState :=
  { now := s.now, persisted := s.persisted, mem_cache := s.persisted }

/-- Modelled from the spec: ListSnapshots reads the entity records as the
Coordinator currently sees them. -/
def listSnapshots (s : SysState) : List SnapshotEntity := s.mem_cache

/-- Modelled from the spec: a DeleteSnapshot request — a COMPLETE entity
moves to DELETING; a delete of a still-CREATING entity is rejected with a
Conflict error rather than racing the creation (section 4.1). -/
def deleteSnapshotReq (sid : Nat) (s : SysState) : Except YBError SysState :=
  match s.persisted.find? (fun e => e.eid == sid) with
  | none => Except.error (YBError.NotFound "Snapshot not found")
  | some e =>
    match e.state with
    | SnapshotState.COMPLETE =>
      let next := s.persisted.map (fun x =>
        if x.eid == sid then { x with state := SnapshotState.DELETING } else x)
      Except.ok { now := s.now, persisted := next, mem_cache := next }
    | SnapshotState.CREATING =>
      Except.error (YBError.Conflict "Snapshot is being created")
    | _ => Except.error (YBError.IllegalState "Wrong snapshot state")

/-- Modelled from the spec: a destination cluster for import, represented
by the set of table ids that are openable there (section 4.4: import
completion is defined purely in terms of destination-side visibility). -/
structure Cluster where
  tables : List String
deriving DecidableEq

/-- Modelled from the spec: opening a table in the destination cluster
succeeds exactly when the table id is visible there. -/
def openTableIn (c : Cluster) (id : String) : Except YBError Unit :=
  if id ∈ c.tables then Except.ok () else
    Except.error (YBError.NotFound "Table not found")

/-- Modelled from the spec: ImportSnapshotMeta (section 4.4) recreates in
the destination cluster one table per table captured in the snapshot
metadata and returns the old-id to new-id mapping consumed by callers. -/
def ImportSnapshotMeta (c : Cluster) (oldIds : List String) :
    Cluster × List TableMetaPB :=
  let metas := oldIds.map (fun old => TableMetaPB.mk old ("imported_" ++ old))
  (Cluster.mk (c.tables ++ metas.map (fun m => m.new_id)), metas)

/-- Modelled from the spec: the recreated table accepts writes exactly
when it is openable in the destination cluster (the ImportMeta scenario
writes to the table right after opening it). -/
def writeRowIn (c : Cluster) (id : String) : Except YBError Unit :=
  openTableIn c id

/-- Modelled from the spec: one committed version of the table contents —
the commit hybrid time together with the full key-to-value row set the
committing transaction left behind. Snapshot isolation makes every
committed transaction a single such version. -/
structure Version where
  ht : Nat
  rows : List (Nat × Nat)
deriving DecidableEq

/-- Modelled from the spec: the multi-version table data retained within
the history window — the list of committed versions, newest first. -/
structure TableData where
  versions : List Version
deriving DecidableEq

/-- The contents visible at hybrid time t: the rows of the newest version
committed at or before t, or the empty table when none is. -/
def readVersions : List Version → Nat → List (Nat × Nat)
  | [], _ => []
  | v :: rest, t => if v.ht ≤ t then v.rows else readVersions rest t

/-- The table contents visible at hybrid time t. -/
def readAt (d : TableData) (t : Nat) : List (Nat × Nat) :=
  readVersions d.versions t

/-- Modelled from the spec: a committed transactional write at hybrid
time t leaving the table contents rows (the WriteData helper of the
scenarios writes every verified row in one transaction). -/
def writeAt (d : TableData) (t : Nat) (rows : List (Nat × Nat)) : TableData :=
  TableData.mk (Version.mk t rows :: d.versions)

/-- Modelled from the spec: restoring a snapshot whose consistent hybrid
time is hs, applied at current time n — the participants roll the visible
state back to the contents at hs, committed as a new version at n. -/
def restoreAt (d : TableData) (hs n : Nat) : TableData :=
  writeAt d n (readAt d hs)

/-- Modelled from the spec: RestoreSnapshot with an acceptable interval i
and target restore_ht restores the data to its state at a hybrid time
within the window from restore_ht - i to restore_ht; the model restores
to the earliest acceptable point of the window. -/
def restoreInterval (d : TableData) (restore_ht i n : Nat) : TableData :=
  writeAt d n (readAt d (restore_ht - i))

/-- Modelled from the spec: the row set the Consistency workload commits —
one shared value written to every one of K keys in a single transaction. -/
def uniformRows : Nat → Nat → List (Nat × Nat)
  | 0, _ => []
  | Nat.succ k, v => (k, v) :: uniformRows k v

/-- Modelled from the spec: SelectRow — the value stored under key j, if
any. -/
def selectRow (rows : List (Nat × Nat)) (j : Nat) : Option Nat :=
  Option.map Prod.snd (rows.find? (fun p => p.1 == j))

end YB

namespace YB

/-- Helper: the import-done predicate succeeds exactly when every listed
table opens successfully. -/
theorem isSnapshotImportDone_ok_iff
    (openTable : String → Except YBError Unit) :
    ∀ data : List TableMetaPB,
      IsSnapshotImportDone openTable data = Except.ok true ↔
        ∀ t ∈ data, openTable t.new_id = Except.ok ()
  | [] => by simp [IsSnapshotImportDone]
  | t :: rest => by
    have ih := isSnapshotImportDone_ok_iff openTable rest
    constructor
    · intro h
      cases hop : openTable t.new_id with
      | error e => simp [IsSnapshotImportDone, hop] at h
      | ok u =>
        intro x hx
        rcases List.mem_cons.mp hx with hx | hx
        · cases u; exact hx ▸ hop
        · exact (ih.mp (by simpa [IsSnapshotImportDone, hop] using h)) x hx
    · intro h
      have hop : openTable t.new_id = Except.ok () :=
        h t (List.mem_cons_self t rest)
      simpa [IsSnapshotImportDone, hop] using
        ih.mpr (fun x hx => h x (List.mem_cons_of_mem t hx))

/-- Helper: every table recreated by the modelled import is openable in
the resulting destination cluster. -/
theorem importSnapshotMeta_open (c : Cluster) (oldIds : List String)
    (m : TableMetaPB) (hm : m ∈ (ImportSnapshotMeta c oldIds).2) :
    openTableIn (ImportSnapshotMeta c oldIds).1 m.new_id = Except.ok () := by
  have hmem : m.new_id ∈ (ImportSnapshotMeta c oldIds).1.tables := by
    simp only [ImportSnapshotMeta] at hm ⊢
    exact List.mem_append_right _ (List.mem_map_of_mem _ hm)
  simp [openTableIn, hmem]

/-- C1: the first polling predicate of WaitAllSnapshotsDeleted, evaluated
on a listing with exactly one snapshot whose state is DELETING, returns
true — it reports deletion complete while the state is still DELETING,
because the comma expression discards the state and branches on the
truthy constant DELETED, instead of the equality check the claim (and the
specification) requires. -/
theorem waitAllSnapshotsDeletedPoll_true_while_deleting :
    waitAllSnapshotsDeletedPoll [SnapshotState.DELETING] = Except.ok true := rfl

/-- C9: whenever the number of snapshots listed differs from one, the
wait-for-deletion check fails with an IllegalState error (unexpected
entity count), and the surrounding polling loop stops with that error
rather than continuing to poll. -/
theorem waitAllSnapshotsDeletedPoll_wrong_count
    (snapshots : List SnapshotState) (h : snapshots.length ≠ 1)
    (fuel : Nat) (hf : 0 < fuel) :
    waitAllSnapshotsDeletedPoll snapshots =
        Except.error (YBError.IllegalState "Wrong number of snapshots") ∧
      waitForPoll (waitAllSnapshotsDeletedPoll snapshots) fuel =
        Except.error (YBError.IllegalState "Wrong number of snapshots") := by
  have hpred : waitAllSnapshotsDeletedPoll snapshots =
      Except.error (YBError.IllegalState "Wrong number of snapshots") := by
    match snapshots with
    | [] => rfl
    | [s0] => exact absurd rfl h
    | s0 :: s1 :: rest => rfl
  refine ⟨hpred, ?_⟩
  match fuel with
  | 0 => exact absurd hf (by simp)
  | Nat.succ n => simp [waitForPoll, hpred]

/-- Witness for C9 at the concrete empty listing with one round of fuel. -/
theorem waitAllSnapshotsDeletedPoll_wrong_count_witness :
    ([] : List SnapshotState).length ≠ 1 ∧ 0 < 1 ∧
      (waitAllSnapshotsDeletedPoll [] =
          Except.error (YBError.IllegalState "Wrong number of snapshots") ∧
        waitForPoll (waitAllSnapshotsDeletedPoll []) 1 =
          Except.error (YBError.IllegalState "Wrong number of snapshots")) :=
  ⟨by decide, by decide,
    waitAllSnapshotsDeletedPoll_wrong_count [] (by decide) 1 (by decide)⟩

/-- Helper: time advances by one unit per tick. -/
theorem ticks_now (cfg : CoordinatorConfig) (env : ClusterEnv) :
    ∀ (n : Nat) (s : SysState), (ticks cfg env n s).now = s.now + n
  | 0, s => rfl
  | Nat.succ n, s => by
    have ih := ticks_now cfg env n (tick cfg env s)
    show (ticks cfg env n (tick cfg env s)).now = s.now + (n + 1)
    rw [ih]
    show s.now + 1 + n = s.now + (n + 1)
    omega

/-- Helper: an entity mapped by pollEntity survives into the next tick. -/
theorem mem_tick_of_poll (cfg : CoordinatorConfig) (env : ClusterEnv)
    (s : SysState) (e e2 : SnapshotEntity) (hmem : e ∈ s.persisted)
    (hp : pollEntity cfg env s.now e = some e2) :
    e2 ∈ (tick cfg env s).persisted := by
  simp only [tick]
  exact List.mem_filterMap.mpr ⟨e, hmem, hp⟩

/-- Helper: a COMPLETE entity is a fixed point of the poll step. -/
theorem pollEntity_complete (cfg : CoordinatorConfig) (env : ClusterEnv)
    (now : Nat) (e : SnapshotEntity) (h : e.state = SnapshotState.COMPLETE) :
    pollEntity cfg env now e = some e := by
  simp [pollEntity, h]

/-- Helper: a FAILED entity is a fixed point of the poll step. -/
theorem pollEntity_failed (cfg : CoordinatorConfig) (env : ClusterEnv)
    (now : Nat) (e : SnapshotEntity) (h : e.state = SnapshotState.FAILED) :
    pollEntity cfg env now e = some e := by
  simp [pollEntity, h]

/-- Helper: an entity fixed by the poll step stays in the persisted log
through any number of ticks. -/
theorem mem_ticks_of_fixed (cfg : CoordinatorConfig) (env : ClusterEnv)
    (e : SnapshotEntity)
    (hfix : ∀ now, pollEntity cfg env now e = some e) :
    ∀ (n : Nat) (s : SysState), e ∈ s.persisted →
      e ∈ (ticks cfg env n s).persisted
  | 0, _, h => h
  | Nat.succ n, s, h =>
    mem_ticks_of_fixed cfg env e hfix n (tick cfg env s)
      (mem_tick_of_poll cfg env s e e h (hfix s.now))

/-- Helper: once the cache matches the persisted log it stays matched
through any number of ticks. -/
theorem ticks_cache_eq (cfg : CoordinatorConfig) (env : ClusterEnv) :
    ∀ (n : Nat) (s : SysState), s.mem_cache = s.persisted →
      (ticks cfg env n s).mem_cache = (ticks cfg env n s).persisted
  | 0, _, h => h
  | Nat.succ n, s, _ => ticks_cache_eq cfg env n (tick cfg env s) rfl

/-- Helper: an empty persisted log stays empty through any number of
ticks. -/
theorem ticks_persisted_nil (cfg : CoordinatorConfig) (env : ClusterEnv) :
    ∀ (n : Nat) (s : SysState), s.persisted = [] →
      (ticks cfg env n s).persisted = []
  | 0, _, h => h
  | Nat.succ n, s, h =>
    ticks_persisted_nil cfg env n (tick cfg env s) (by simp [tick, h])

/-- Helper: a CREATING entity survives unchanged through poll ticks with
unreachable participants while the overall timeout has not elapsed. -/
theorem creating_down_mem (cfg : CoordinatorConfig) (e : SnapshotEntity)
    (hst : e.state = SnapshotState.CREATING) :
    ∀ (n : Nat) (s : SysState), e ∈ s.persisted →
      s.now + n < e.creation_time + cfg.overall_timeout →
      e ∈ (ticks cfg ⟨false, true⟩ n s).persisted
  | 0, _, hmem, _ => hmem
  | Nat.succ n, s, hmem, hlt => by
    have hnow : ¬ e.creation_time + cfg.overall_timeout ≤ s.now := by omega
    have hpoll : pollEntity cfg ⟨false, true⟩ s.now e = some e := by
      simp [pollEntity, hst, hnow]
    have hnext : (tick cfg ⟨false, true⟩ s).now + n <
        e.creation_time + cfg.overall_timeout := by
      simp only [tick]
      omega
    exact creating_down_mem cfg e hst n (tick cfg ⟨false, true⟩ s)
      (mem_tick_of_poll cfg ⟨false, true⟩ s e e hmem hpoll) hnext

/-- Helper: the cleanup sweep purges a lone DELETED entity within one
tick of its age exceeding the cleanup delay, working purely from the
persisted record. -/
theorem ticks_purge_deleted (cfg : CoordinatorConfig) (env : ClusterEnv)
    (v : SnapshotEntity) (dt : Nat) (hst : v.state = SnapshotState.DELETED)
    (hdt : v.delete_start_time = some dt) :
    ∀ (k : Nat) (s : SysState), s.persisted = [v] →
      dt + cfg.cleanup_delay ≤ s.now + k →
      (ticks cfg env (k + 1) s).persisted = []
  | 0, s, hp, hle => by
    have hc : dt + cfg.cleanup_delay ≤ s.now := by omega
    have hpoll : pollEntity cfg env s.now v = none := by
      simp [pollEntity, hst, hdt, hc]
    show (tick cfg env s).persisted = []
    simp [tick, hp, hpoll]
  | Nat.succ k, s, hp, hle => by
    by_cases hc : dt + cfg.cleanup_delay ≤ s.now
    · have hpoll : pollEntity cfg env s.now v = none := by
        simp [pollEntity, hst, hdt, hc]
      have hnil : (tick cfg env s).persisted = [] := by simp [tick, hp, hpoll]
      show (ticks cfg env (k + 1) (tick cfg env s)).persisted = []
      exact ticks_persisted_nil cfg env (k + 1) _ hnil
    · have hpoll : pollEntity cfg env s.now v = some v := by
        simp [pollEntity, hst, hdt, hc]
      have hp2 : (tick cfg env s).persisted = [v] := by simp [tick, hp, hpoll]
      have hle2 : dt + cfg.cleanup_delay ≤ (tick cfg env s).now + k := by
        simp only [tick]
        omega
      exact ticks_purge_deleted cfg env v dt hst hdt k (tick cfg env s) hp2 hle2

/-- C2: a snapshot created while all participant tablet servers are
unreachable is still observed in state CREATING after any number of poll
rounds below the overall timeout (the unchanged CREATING entity remains
in the persisted log — it neither completes nor fails silently), and
once the participants return, one further poll round converges it to
COMPLETE with every tablet reported DONE. -/
theorem snapshot_retry_creating_then_complete (cfg : CoordinatorConfig)
    (e : SnapshotEntity) (s : SysState) (n : Nat)
    (hmem : e ∈ s.persisted) (hst : e.state = SnapshotState.CREATING)
    (hto : s.now + n < e.creation_time + cfg.overall_timeout) :
    e ∈ (ticks cfg ⟨false, true⟩ n s).persisted ∧
      { e with
        tablets := e.tablets.map (fun _ => TabletStatus.DONE),
        state := SnapshotState.COMPLETE } ∈
        listSnapshots (tick cfg ⟨true, true⟩ (ticks cfg ⟨false, true⟩ n s)) := by
  have hdown := creating_down_mem cfg e hst n s hmem hto
  refine ⟨hdown, ?_⟩
  have hpoll : pollEntity cfg ⟨true, true⟩ (ticks cfg ⟨false, true⟩ n s).now e =
      some { e with
        tablets := e.tablets.map (fun _ => TabletStatus.DONE),
        state := SnapshotState.COMPLETE } := by
    simp [pollEntity, hst]
  exact mem_tick_of_poll cfg ⟨true, true⟩ (ticks cfg ⟨false, true⟩ n s) e _
    hdown hpoll

/-- Witness for C2 at a concrete CREATING entity, three unreachable poll
rounds, then one reachable round. -/
theorem snapshot_retry_creating_then_complete_witness :
    (⟨1, SnapshotState.CREATING, [TabletStatus.PENDING, TabletStatus.PENDING],
        0, 50, none, true⟩ : SnapshotEntity) ∈
        ({ now := 0,
           persisted := [⟨1, SnapshotState.CREATING,
             [TabletStatus.PENDING, TabletStatus.PENDING], 0, 50, none, true⟩],
           mem_cache := [⟨1, SnapshotState.CREATING,
             [TabletStatus.PENDING, TabletStatus.PENDING], 0, 50, none,
             true⟩] } : SysState).persisted ∧
      (⟨1, SnapshotState.CREATING, [TabletStatus.PENDING, TabletStatus.PENDING],
          0, 50, none, true⟩ : SnapshotEntity).state = SnapshotState.CREATING ∧
      (0 : Nat) + 3 < 0 + 100 ∧
      ((⟨1, SnapshotState.CREATING, [TabletStatus.PENDING, TabletStatus.PENDING],
          0, 50, none, true⟩ : SnapshotEntity) ∈
        (ticks ⟨100, 5⟩ ⟨false, true⟩ 3
          { now := 0,
            persisted := [⟨1, SnapshotState.CREATING,
              [TabletStatus.PENDING, TabletStatus.PENDING], 0, 50, none, true⟩],
            mem_cache := [⟨1, SnapshotState.CREATING,
              [TabletStatus.PENDING, TabletStatus.PENDING], 0, 50, none,
              true⟩] }).persisted ∧
      (⟨1, SnapshotState.COMPLETE, [TabletStatus.DONE, TabletStatus.DONE],
          0, 50, none, true⟩ : SnapshotEntity) ∈
        listSnapshots (tick ⟨100, 5⟩ ⟨true, true⟩
          (ticks ⟨100, 5⟩ ⟨false, true⟩ 3
            { now := 0,
              persisted := [⟨1, SnapshotState.CREATING,
                [TabletStatus.PENDING, TabletStatus.PENDING], 0, 50, none,
                true⟩],
              mem_cache := [⟨1, SnapshotState.CREATING,
                [TabletStatus.PENDING, TabletStatus.PENDING], 0, 50, none,
                true⟩] }))) :=
  ⟨by decide, rfl, by decide,
    snapshot_retry_creating_then_complete ⟨100, 5⟩ _ _ 3 (by decide) rfl
      (by decide)⟩

/-- C3: a snapshot that has reached COMPLETE still reports COMPLETE after
a restart of the coordinating master, after any number of further poll
rounds, and after a second restart followed by more poll rounds; the
identical entity record survives (same tablets, same hybrid time), so no
part of the create is re-executed. -/
theorem snapshot_complete_survives_restarts (cfg : CoordinatorConfig)
    (env : ClusterEnv) (e : SnapshotEntity) (s : SysState) (n m : Nat)
    (hmem : e ∈ s.persisted) (hst : e.state = SnapshotState.COMPLETE) :
    e ∈ listSnapshots (restartMaster s) ∧
      e ∈ (ticks cfg env n (restartMaster s)).persisted ∧
      e ∈ listSnapshots (restartMaster (ticks cfg env n (restartMaster s))) ∧
      e ∈ (ticks cfg env m
        (restartMaster (ticks cfg env n (restartMaster s)))).persisted := by
  have hfix : ∀ now, pollEntity cfg env now e = some e :=
    fun now => pollEntity_complete cfg env now e hst
  have h1 : e ∈ (restartMaster s).persisted := hmem
  have h2 := mem_ticks_of_fixed cfg env e hfix n (restartMaster s) h1
  exact ⟨h1, h2, h2, mem_ticks_of_fixed cfg env e hfix m _ h2⟩

/-- Witness for C3 at a concrete COMPLETE entity with two restarts and
two and three poll rounds. -/
theorem snapshot_complete_survives_restarts_witness :
    (⟨2, SnapshotState.COMPLETE, [TabletStatus.DONE], 3, 7, none, true⟩ :
        SnapshotEntity) ∈
        ({ now := 9,
           persisted := [⟨2, SnapshotState.COMPLETE, [TabletStatus.DONE], 3, 7,
             none, true⟩],
           mem_cache := [] } : SysState).persisted ∧
      (⟨2, SnapshotState.COMPLETE, [TabletStatus.DONE], 3, 7, none, true⟩ :
          SnapshotEntity).state = SnapshotState.COMPLETE ∧
      ((⟨2, SnapshotState.COMPLETE, [TabletStatus.DONE], 3, 7, none, true⟩ :
          SnapshotEntity) ∈
        listSnapshots (restartMaster
          { now := 9,
            persisted := [⟨2, SnapshotState.COMPLETE, [TabletStatus.DONE], 3, 7,
              none, true⟩],
            mem_cache := [] }) ∧
      (⟨2, SnapshotState.COMPLETE, [TabletStatus.DONE], 3, 7, none, true⟩ :
          SnapshotEntity) ∈
        (ticks ⟨100, 5⟩ ⟨true, true⟩ 2 (restartMaster
          { now := 9,
            persisted := [⟨2, SnapshotState.COMPLETE, [TabletStatus.DONE], 3, 7,
              none, true⟩],
            mem_cache := [] })).persisted ∧
      (⟨2, SnapshotState.COMPLETE, [TabletStatus.DONE], 3, 7, none, true⟩ :
          SnapshotEntity) ∈
        listSnapshots (restartMaster (ticks ⟨100, 5⟩ ⟨true, true⟩ 2
          (restartMaster
            { now := 9,
              persisted := [⟨2, SnapshotState.COMPLETE, [TabletStatus.DONE], 3,
                7, none, true⟩],
              mem_cache := [] }))) ∧
      (⟨2, SnapshotState.COMPLETE, [TabletStatus.DONE], 3, 7, none, true⟩ :
          SnapshotEntity) ∈
        (ticks ⟨100, 5⟩ ⟨true, true⟩ 3 (restartMaster
          (ticks ⟨100, 5⟩ ⟨true, true⟩ 2 (restartMaster
            { now := 9,
              persisted := [⟨2, SnapshotState.COMPLETE, [TabletStatus.DONE], 3,
                7, none, true⟩],
              mem_cache := [] })))).persisted) :=
  ⟨by decide, rfl,
    snapshot_complete_survives_restarts ⟨100, 5⟩ ⟨true, true⟩ _ _ 2 3
      (by decide) rfl⟩

/-- C5: after DeleteSnapshot is issued on the lone COMPLETE snapshot, one
poll round with reachable participants makes ListSnapshots show the
entity DELETED with no on-disk artifacts on any partition and with the
deletion time persisted; after a restart of the coordinating master, the
cleanup sweep — re-deriving its candidates from the persisted record —
purges the entity within cleanup_delay + 1 further rounds, after which
it has disappeared from ListSnapshots entirely. -/
theorem snapshot_delete_then_cleanup (cfg : CoordinatorConfig)
    (env : ClusterEnv) (e : SnapshotEntity) (s : SysState)
    (hup : env.tservers_up = true) (hst : e.state = SnapshotState.COMPLETE)
    (hp : s.persisted = [e]) :
    ∃ s1, deleteSnapshotReq e.eid s = Except.ok s1 ∧
      listSnapshots (tick cfg env s1) =
        [{ e with
          state := SnapshotState.DELETED,
          on_disk := false,
          delete_start_time := some s.now }] ∧
      (ticks cfg env (cfg.cleanup_delay + 1)
        (restartMaster (tick cfg env s1))).persisted = [] ∧
      listSnapshots (ticks cfg env (cfg.cleanup_delay + 1)
        (restartMaster (tick cfg env s1))) = [] := by
  have hreq : deleteSnapshotReq e.eid s = Except.ok
      { now := s.now,
        persisted := [{ e with state := SnapshotState.DELETING }],
        mem_cache := [{ e with state := SnapshotState.DELETING }] } := by
    simp [deleteSnapshotReq, hp, hst]
  have htick : tick cfg env
      { now := s.now,
        persisted := [{ e with state := SnapshotState.DELETING }],
        mem_cache := [{ e with state := SnapshotState.DELETING }] } =
      { now := s.now + 1,
        persisted := [{ e with
          state := SnapshotState.DELETED,
          on_disk := false,
          delete_start_time := some s.now }],
        mem_cache := [{ e with
          state := SnapshotState.DELETED,
          on_disk := false,
          delete_start_time := some s.now }] } := by
    simp [tick, pollEntity, hup]
  have hpurge : (ticks cfg env (cfg.cleanup_delay + 1)
      (restartMaster
        { now := s.now + 1,
          persisted := [{ e with
            state := SnapshotState.DELETED,
            on_disk := false,
            delete_start_time := some s.now }],
          mem_cache := [{ e with
            state := SnapshotState.DELETED,
            on_disk := false,
            delete_start_time := some s.now }] })).persisted = [] := by
    refine ticks_purge_deleted cfg env
      { e with
        state := SnapshotState.DELETED,
        on_disk := false,
        delete_start_time := some s.now } s.now rfl rfl cfg.cleanup_delay _
      rfl ?_
    show s.now + cfg.cleanup_delay ≤ s.now + 1 + cfg.cleanup_delay
    omega
  have hcache : listSnapshots (ticks cfg env (cfg.cleanup_delay + 1)
      (restartMaster
        { now := s.now + 1,
          persisted := [{ e with
            state := SnapshotState.DELETED,
            on_disk := false,
            delete_start_time := some s.now }],
          mem_cache := [{ e with
            state := SnapshotState.DELETED,
            on_disk := false,
            delete_start_time := some s.now }] })) = [] := by
    have hc := ticks_cache_eq cfg env (cfg.cleanup_delay + 1)
      (restartMaster
        { now := s.now + 1,
          persisted := [{ e with
            state := SnapshotState.DELETED,
            on_disk := false,
            delete_start_time := some s.now }],
          mem_cache := [{ e with
            state := SnapshotState.DELETED,
            on_disk := false,
            delete_start_time := some s.now }] }) rfl
    exact hc.trans hpurge
  refine ⟨_, hreq, ?_, ?_, ?_⟩
  · rw [htick]
    rfl
  · rw [htick]
    exact hpurge
  · rw [htick]
    exact hcache

/-- Witness for C5 at a concrete lone COMPLETE entity. -/
theorem snapshot_delete_then_cleanup_witness :
    (⟨true, true⟩ : ClusterEnv).tservers_up = true ∧
      (⟨4, SnapshotState.COMPLETE, [TabletStatus.DONE], 2, 6, none, true⟩ :
        SnapshotEntity).state = SnapshotState.COMPLETE ∧
      ({ now := 8,
         persisted := [⟨4, SnapshotState.COMPLETE, [TabletStatus.DONE], 2, 6,
           none, true⟩],
         mem_cache := [⟨4, SnapshotState.COMPLETE, [TabletStatus.DONE], 2, 6,
           none, true⟩] } : SysState).persisted =
        [⟨4, SnapshotState.COMPLETE, [TabletStatus.DONE], 2, 6, none, true⟩] ∧
      ∃ s1, deleteSnapshotReq 4
          { now := 8,
            persisted := [⟨4, SnapshotState.COMPLETE, [TabletStatus.DONE], 2, 6,
              none, true⟩],
            mem_cache := [⟨4, SnapshotState.COMPLETE, [TabletStatus.DONE], 2, 6,
              none, true⟩] } = Except.ok s1 ∧
        listSnapshots (tick ⟨100, 3⟩ ⟨true, true⟩ s1) =
          [⟨4, SnapshotState.DELETED, [TabletStatus.DONE], 2, 6, some 8,
            false⟩] ∧
        (ticks ⟨100, 3⟩ ⟨true, true⟩ 4
          (restartMaster (tick ⟨100, 3⟩ ⟨true, true⟩ s1))).persisted = [] ∧
        listSnapshots (ticks ⟨100, 3⟩ ⟨true, true⟩ 4
          (restartMaster (tick ⟨100, 3⟩ ⟨true, true⟩ s1))) = [] :=
  ⟨rfl, rfl, rfl,
    snapshot_delete_then_cleanup ⟨100, 3⟩ ⟨true, true⟩
      ⟨4, SnapshotState.COMPLETE, [TabletStatus.DONE], 2, 6, none, true⟩
      { now := 8,
        persisted := [⟨4, SnapshotState.COMPLETE, [TabletStatus.DONE], 2, 6,
          none, true⟩],
        mem_cache := [⟨4, SnapshotState.COMPLETE, [TabletStatus.DONE], 2, 6,
          none, true⟩] } rfl rfl rfl⟩

/-- C6: a snapshot stuck in CREATING — whatever the reachability of its
participants — is driven to the terminal state FAILED within one poll
round once its covered table is deleted, both without and with a restart
of the masters in between, and it stays FAILED from then on. -/
theorem delete_table_drives_snapshot_failed (cfg : CoordinatorConfig)
    (up : Bool) (e : SnapshotEntity) (s : SysState) (k : Nat)
    (hmem : e ∈ s.persisted) (hst : e.state = SnapshotState.CREATING) :
    { e with state := SnapshotState.FAILED } ∈
        listSnapshots (tick cfg ⟨up, false⟩ s) ∧
      { e with state := SnapshotState.FAILED } ∈
        listSnapshots (tick cfg ⟨up, false⟩ (restartMaster s)) ∧
      { e with state := SnapshotState.FAILED } ∈
        (ticks cfg ⟨up, false⟩ k (tick cfg ⟨up, false⟩ s)).persisted := by
  have hpoll : ∀ now, pollEntity cfg ⟨up, false⟩ now e =
      some { e with state := SnapshotState.FAILED } := by
    intro now
    simp [pollEntity, hst]
  have h1 := mem_tick_of_poll cfg ⟨up, false⟩ s e _ hmem (hpoll s.now)
  have h2 := mem_tick_of_poll cfg ⟨up, false⟩ (restartMaster s) e _ hmem
    (hpoll s.now)
  have hfix : ∀ now, pollEntity cfg ⟨up, false⟩ now
      { e with state := SnapshotState.FAILED } =
      some { e with state := SnapshotState.FAILED } :=
    fun now => pollEntity_failed cfg ⟨up, false⟩ now _ rfl
  exact ⟨h1, h2, mem_ticks_of_fixed cfg ⟨up, false⟩ _ hfix k _ h1⟩

/-- Witness for C6 at a concrete stuck CREATING entity with unreachable
participants and five extra rounds. -/
theorem delete_table_drives_snapshot_failed_witness :
    (⟨6, SnapshotState.CREATING, [TabletStatus.PENDING], 1, 4, none, true⟩ :
        SnapshotEntity) ∈
        ({ now := 2,
           persisted := [⟨6, SnapshotState.CREATING, [TabletStatus.PENDING], 1,
             4, none, true⟩],
           mem_cache := [⟨6, SnapshotState.CREATING, [TabletStatus.PENDING], 1,
             4, none, true⟩] } : SysState).persisted ∧
      (⟨6, SnapshotState.CREATING, [TabletStatus.PENDING], 1, 4, none, true⟩ :
          SnapshotEntity).state = SnapshotState.CREATING ∧
      ((⟨6, SnapshotState.FAILED, [TabletStatus.PENDING], 1, 4, none, true⟩ :
          SnapshotEntity) ∈
        listSnapshots (tick ⟨100, 5⟩ ⟨false, false⟩
          { now := 2,
            persisted := [⟨6, SnapshotState.CREATING, [TabletStatus.PENDING], 1,
              4, none, true⟩],
            mem_cache := [⟨6, SnapshotState.CREATING, [TabletStatus.PENDING], 1,
              4, none, true⟩] }) ∧
      (⟨6, SnapshotState.FAILED, [TabletStatus.PENDING], 1, 4, none, true⟩ :
          SnapshotEntity) ∈
        listSnapshots (tick ⟨100, 5⟩ ⟨false, false⟩ (restartMaster
          { now := 2,
            persisted := [⟨6, SnapshotState.CREATING, [TabletStatus.PENDING], 1,
              4, none, true⟩],
            mem_cache := [⟨6, SnapshotState.CREATING, [TabletStatus.PENDING], 1,
              4, none, true⟩] })) ∧
      (⟨6, SnapshotState.FAILED, [TabletStatus.PENDING], 1, 4, none, true⟩ :
          SnapshotEntity) ∈
        (ticks ⟨100, 5⟩ ⟨false, false⟩ 5 (tick ⟨100, 5⟩ ⟨false, false⟩
          { now := 2,
            persisted := [⟨6, SnapshotState.CREATING, [TabletStatus.PENDING], 1,
              4, none, true⟩],
            mem_cache := [⟨6, SnapshotState.CREATING, [TabletStatus.PENDING], 1,
              4, none, true⟩] })).persisted) :=
  ⟨by decide, rfl,
    delete_table_drives_snapshot_failed ⟨100, 5⟩ false
      ⟨6, SnapshotState.CREATING, [TabletStatus.PENDING], 1, 4, none, true⟩
      { now := 2,
        persisted := [⟨6, SnapshotState.CREATING, [TabletStatus.PENDING], 1, 4,
          none, true⟩],
        mem_cache := [⟨6, SnapshotState.CREATING, [TabletStatus.PENDING], 1, 4,
          none, true⟩] } 5 (by decide) rfl⟩

/-- Helper: any key below K holds the shared value in a uniform row set. -/
theorem selectRow_uniformRows (v : Nat) :
    ∀ (K j : Nat), j < K → selectRow (uniformRows K v) j = some v
  | 0, j, h => absurd h (Nat.not_lt_zero j)
  | Nat.succ k, j, h => by
    by_cases hj : k = j
    · subst hj
      simp [uniformRows, selectRow]
    · have hlt : j < k := by omega
      have ih := selectRow_uniformRows v k j hlt
      simpa [uniformRows, selectRow, hj] using ih

/-- Helper: what is visible at time t is either the empty table or the
row set of some version committed at or before t. -/
theorem readVersions_cases :
    ∀ (l : List Version) (t : Nat),
      readVersions l t = [] ∨
        ∃ v ∈ l, v.ht ≤ t ∧ readVersions l t = v.rows
  | [], _ => Or.inl rfl
  | v :: rest, t => by
    by_cases h : v.ht ≤ t
    · exact Or.inr ⟨v, List.mem_cons_self v rest, h, by simp [readVersions, h]⟩
    · rcases readVersions_cases rest t with hnil | ⟨w, hw, hwt, heq⟩
      · exact Or.inl (by simp [readVersions, h, hnil])
      · exact Or.inr ⟨w, List.mem_cons_of_mem v hw, hwt,
          by simp [readVersions, h, heq]⟩

/-- C4: round trip over any table state — writing the INSERT rows,
taking a snapshot whose consistent hybrid time falls after that write and
before the overwrite, overwriting with the UPDATE rows, then restoring
the snapshot makes exactly the pre-overwrite INSERT row values visible,
byte for byte. -/
theorem backup_restore_round_trip (d0 : TableData) (ins upd : List (Nat × Nat))
    (t1 hs t2 n : Nat) (h1 : t1 ≤ hs) (h2 : hs < t2) :
    readAt (restoreAt (writeAt (writeAt d0 t1 ins) t2 upd) hs n) n = ins := by
  simp [restoreAt, readAt, writeAt, readVersions, Nat.not_le.mpr h2, h1]

/-- Witness for C4 at a concrete one-row table. -/
theorem backup_restore_round_trip_witness :
    (1 : Nat) ≤ 2 ∧ (2 : Nat) < 3 ∧
      readAt (restoreAt (writeAt (writeAt (TableData.mk []) 1 [(0, 11)]) 3
        [(0, 22)]) 2 10) 10 = [(0, 11)] :=
  ⟨by decide, by decide,
    backup_restore_round_trip (TableData.mk []) [(0, 11)] [(0, 22)] 1 2 3 10
      (by decide) (by decide)⟩

/-- C10: RestoreSnapshot with an acceptable interval i and target
restore_ht restores the data to its state at some hybrid time within the
window from restore_ht - i to restore_ht; when the window reaches back
before the overwrite (and not before the INSERT), the visible rows after
the restore are exactly the pre-overwrite INSERT values, rather than
necessarily the state at the snapshot creation time. -/
theorem point_in_time_restore_interval (d0 : TableData)
    (ins upd : List (Nat × Nat)) (t1 t2 restore_ht i n : Nat)
    (h1 : t1 ≤ restore_ht - i) (h2 : restore_ht - i < t2) :
    ∃ t, restore_ht - i ≤ t ∧ t ≤ restore_ht ∧
      readAt (restoreInterval (writeAt (writeAt d0 t1 ins) t2 upd)
          restore_ht i n) n =
        readAt (writeAt (writeAt d0 t1 ins) t2 upd) t ∧
      readAt (restoreInterval (writeAt (writeAt d0 t1 ins) t2 upd)
          restore_ht i n) n = ins := by
  refine ⟨restore_ht - i, le_refl _, Nat.sub_le _ _, ?_, ?_⟩
  · simp [restoreInterval, readAt, writeAt, readVersions]
  · simp [restoreInterval, readAt, writeAt, readVersions,
      Nat.not_le.mpr h2, h1]

/-- Witness for C10 at a concrete one-row table with a window reaching
back before the overwrite. -/
theorem point_in_time_restore_interval_witness :
    (1 : Nat) ≤ 6 - 4 ∧ (6 : Nat) - 4 < 5 ∧
      ∃ t, (6 : Nat) - 4 ≤ t ∧ t ≤ 6 ∧
        readAt (restoreInterval (writeAt (writeAt (TableData.mk []) 1
            [(0, 11)]) 5 [(0, 22)]) 6 4 10) 10 =
          readAt (writeAt (writeAt (TableData.mk []) 1 [(0, 11)]) 5
            [(0, 22)]) t ∧
        readAt (restoreInterval (writeAt (writeAt (TableData.mk []) 1
            [(0, 11)]) 5 [(0, 22)]) 6 4 10) 10 = [(0, 11)] :=
  ⟨by decide, by decide,
    point_in_time_restore_interval (TableData.mk []) [(0, 11)] [(0, 22)]
      1 5 6 4 10 (by decide) (by decide)⟩

/-- C8: with the Consistency workload — concurrent transactional writers
each committing one shared value across all K keys — restoring a snapshot
taken during the workload yields a single consistent value: every key
below K reads the same value, any two keys read equal values, and that
value is the one visible at the snapshot hybrid time. -/
theorem concurrent_writers_consistency (d : TableData) (K hs n : Nat)
    (huni : ∀ ver ∈ d.versions, ∃ v, ver.rows = uniformRows K v)
    (hne : readAt d hs ≠ []) :
    ∃ v, readAt d hs = uniformRows K v ∧
      (∀ j, j < K → selectRow (readAt (restoreAt d hs n) n) j = some v) ∧
      (∀ j1 j2, j1 < K → j2 < K →
        selectRow (readAt (restoreAt d hs n) n) j1 =
          selectRow (readAt (restoreAt d hs n) n) j2) := by
  have hrest : readAt (restoreAt d hs n) n = readAt d hs := by
    simp [restoreAt, readAt, writeAt, readVersions]
  rcases readVersions_cases d.versions hs with hnil | ⟨w, hw, hwt, heq⟩
  · exact absurd hnil hne
  · rcases huni w hw with ⟨v, hv⟩
    have hval : readAt d hs = uniformRows K v := by
      show readVersions d.versions hs = uniformRows K v
      rw [heq, hv]
    refine ⟨v, hval, ?_, ?_⟩
    · intro j hj
      rw [hrest, hval]
      exact selectRow_uniformRows v K j hj
    · intro j1 j2 hj1 hj2
      rw [hrest, hval]
      exact (selectRow_uniformRows v K j1 hj1).trans
        (selectRow_uniformRows v K j2 hj2).symm

/-- Witness for C8 at a concrete uniform workload history over three
keys. -/
theorem concurrent_writers_consistency_witness :
    (∀ ver ∈ (TableData.mk [Version.mk 5 (uniformRows 3 7)]).versions,
        ∃ v, ver.rows = uniformRows 3 v) ∧
      readAt (TableData.mk [Version.mk 5 (uniformRows 3 7)]) 6 ≠ [] ∧
      ∃ v, readAt (TableData.mk [Version.mk 5 (uniformRows 3 7)]) 6 =
          uniformRows 3 v ∧
        (∀ j, j < 3 →
          selectRow (readAt (restoreAt
            (TableData.mk [Version.mk 5 (uniformRows 3 7)]) 6 10) 10) j =
            some v) ∧
        (∀ j1 j2, j1 < 3 → j2 < 3 →
          selectRow (readAt (restoreAt
            (TableData.mk [Version.mk 5 (uniformRows 3 7)]) 6 10) 10) j1 =
            selectRow (readAt (restoreAt
              (TableData.mk [Version.mk 5 (uniformRows 3 7)]) 6 10) 10) j2) :=
  ⟨by
    intro ver hm
    have h := List.mem_singleton.mp hm
    subst h
    exact ⟨7, rfl⟩,
  by decide,
  concurrent_writers_consistency (TableData.mk [Version.mk 5 (uniformRows 3 7)])
    3 6 10
    (by
      intro ver hm
      have h := List.mem_singleton.mp hm
      subst h
      exact ⟨7, rfl⟩)
    (by decide)⟩

/-- C7: import completion is decided purely by destination-side
visibility. IsSnapshotImportDone returns true exactly when every imported
table opens successfully by its new id (it consults only the open
operation, no coordinator bookkeeping), and after the modelled
ImportSnapshotMeta recreates the tables in a destination cluster — in
particular one where the source objects were deleted — the import is
done and every recreated table is openable and writable. -/
theorem isSnapshotImportDone_destination_visibility
    (openTable : String → Except YBError Unit) (data : List TableMetaPB)
    (c : Cluster) (oldIds : List String) :
    (IsSnapshotImportDone openTable data = Except.ok true ↔
        ∀ t ∈ data, openTable t.new_id = Except.ok ()) ∧
      IsSnapshotImportDone (openTableIn (ImportSnapshotMeta c oldIds).1)
          (ImportSnapshotMeta c oldIds).2 = Except.ok true ∧
      (∀ m ∈ (ImportSnapshotMeta c oldIds).2,
        openTableIn (ImportSnapshotMeta c oldIds).1 m.new_id = Except.ok () ∧
          writeRowIn (ImportSnapshotMeta c oldIds).1 m.new_id = Except.ok ()) := by
  refine ⟨isSnapshotImportDone_ok_iff openTable data, ?_, ?_⟩
  · exact (isSnapshotImportDone_ok_iff _ _).mpr
      (fun m hm => importSnapshotMeta_open c oldIds m hm)
  · exact fun m hm =>
      ⟨importSnapshotMeta_open c oldIds m hm,
        importSnapshotMeta_open c oldIds m hm⟩

end YB
